import Mathlib

/-!
Verification of the request-authorization pipeline of the NestJS advanced
features showcase.  The data model and the operations below are shallow
embeddings of the TypeScript sources:

- `UserRole`, `User`, `UserPayload` embed `src/common/types/user.types.ts`
  (dates and password hashes are external collaborators and are omitted;
  no claim mentions them).
- `OwnershipGuard.canActivate` embeds
  `src/common/guards/ownership.guard.ts` (present in the repository).
- `UsersService.findByEmail` and `UsersService.create` embed
  `src/users/users.service.ts` (the bcrypt password-hash side table is an
  external collaborator and is omitted; the created record, including its
  role, does not depend on it).
- The route metadata table embeds the decorators on
  `src/users/users.controller.ts`.
- `RolesGuard.canActivate`, the token verification step of the
  authentication gate, and the guard-chain composition are code of this
  repository that is not under the sources given (only their tests and
  callers are); they are modelled from the specification, as marked in
  their doc comments.
-/

/-- Roles enumeration, from `UserRole` in `src/common/types/user.types.ts`.
The TypeScript enum values are the strings given by `UserRole.toValue`. -/
inductive UserRole where
  | admin
  | moderator
  | user
deriving DecidableEq, Repr

/-- String value of a role, as declared in the TypeScript enum
(`ADMIN = 'admin'` and so on). -/
def UserRole.toValue : UserRole → String
  | .admin => "admin"
  | .moderator => "moderator"
  | .user => "user"

/-- Stored user record, from the `User` interface in
`src/common/types/user.types.ts` (the `createdAt` and `updatedAt` dates are
external and carried by no claim, so they are omitted). -/
structure User where
  id : String
  email : String
  username : String
  role : UserRole
  isActive : Bool
deriving DecidableEq, Repr

/-- Identity claims attached to a request, from the `UserPayload` interface
in `src/common/types/user.types.ts` (the optional `iat` and `exp` numbers
are consumed only by the external JWT library and are omitted). -/
structure UserPayload where
  sub : String
  email : String
  username : String
  role : UserRole
deriving DecidableEq, Repr

/-- Rejections raised by the pipeline: `UnauthorizedException`,
`ForbiddenException` and `ConflictException` from `@nestjs/common`, each
carrying its message. -/
inductive Exc where
  | unauthorized (message : String)
  | forbidden (message : String)
  | conflict (message : String)
deriving DecidableEq, Repr

/-- Kind test: the rejection is an `UnauthorizedException` (HTTP 401). -/
def Exc.isUnauthorizedKind : Exc → Bool
  | .unauthorized _ => true
  | _ => false

/-- Kind test: the rejection is a `ForbiddenException` (HTTP 403). -/
def Exc.isForbiddenKind : Exc → Bool
  | .forbidden _ => true
  | _ => false

/-- Path parameters of a request: `request.params.userId` and
`request.params.id`.  `none` models an absent parameter (JavaScript
`undefined`). -/
structure RequestParams where
  userId : Option String
  id : Option String
deriving DecidableEq, Repr

/-- JavaScript `a || b` on two optional strings: `undefined` and the empty
string are falsy, every other string is truthy. -/
def jsOrParam : Option String → Option String → Option String
  | some s, b => if s = "" then b else some s
  | none, b => b

/-- Target resource id resolution of the ownership guard, from line 13 of
`src/common/guards/ownership.guard.ts`:
`request.params.userId || request.params.id`. -/
def resolveResourceId (params : RequestParams) : Option String :=
  jsOrParam params.userId params.id

/-- Ownership guard, embedding `OwnershipGuard.canActivate` in
`src/common/guards/ownership.guard.ts`.  `request.user` is the optional
identity; `user.sub !== resourceUserId` compares a string against an
optional string, so it is `some u.sub ≠ resourceUserId`. -/
def OwnershipGuard.canActivate (user : Option UserPayload)
    (params : RequestParams) : Except Exc Bool :=
  let resourceUserId := resolveResourceId params
  match user with
  | none => .error (.forbidden "User not authenticated")
  | some u =>
    if u.role = UserRole.admin then
      .ok true
    else if some u.sub ≠ resourceUserId then
      .error (.forbidden "You can only access your own resources")
    else
      .ok true

/-- Message of the role-mismatch rejection.  Modelled from the spec: the
message must name both the required role set and the actual role; its shape
is corroborated by the unit tests in
`src/common/guards/roles.guard.spec.ts` (the message contains
`Access denied`, `Required roles: admin` and `Your role: user`). -/
def rolesDeniedMessage (required : List UserRole) (actual : UserRole) : String :=
  "Access denied. Required roles: "
    ++ String.intercalate ", " (required.map UserRole.toValue)
    ++ ". Your role: " ++ actual.toValue

/-- Modelled from the spec: `RolesGuard.canActivate`
(`src/common/guards/roles.guard.ts` is missing from the given sources; its
unit tests are in `src/common/guards/roles.guard.spec.ts`).  Per spec 4.3,
an empty or unset `allowedRoles` passes unconditionally; this
required-roles-first order is forced by the e2e tests, where the public
`POST /users` route (which the controller-level roles guard still runs on,
with no identity attached) succeeds. -/
def RolesGuard.canActivate (requiredRoles : Option (List UserRole))
    (user : Option UserPayload) : Except Exc Bool :=
  match requiredRoles with
  | none => .ok true
  | some required =>
    if required.isEmpty then .ok true
    else
      match user with
      | none => .error (.forbidden "User not authenticated")
      | some u =>
        if u.role ∈ required then .ok true
        else .error (.forbidden (rolesDeniedMessage required u.role))

/-- Modelled from the spec: `AuthService.validateUserById`
(`src/auth/auth.service.ts` is missing from the given sources; its unit
tests are in `src/auth/auth.service.spec.ts`).  The subject is re-resolved
against the live user store; a missing or inactive record yields `none`,
and the returned payload is rebuilt from the stored record, so its role is
the stored role, not the role embedded in the token. -/
def validateUserById (store : String → Option User) (id : String) :
    Option UserPayload :=
  match store id with
  | none => none
  | some u =>
    if u.isActive then
      some { sub := u.id, email := u.email, username := u.username,
             role := u.role }
    else none

/-- Outcome of the external JWT verification of a raw bearer token.  The
three failing constructors record the distinct causes a token can fail
verification for (spec 4.1); the gate must collapse them all to one
indistinguishable rejection. -/
inductive VerifyResult where
  | ok (claims : UserPayload)
  | badSignature
  | malformedStructure
  | tokenExpired
deriving DecidableEq, Repr

/-- Per-route authorization metadata (spec section 3): the `@Public()`
flag, the `@Roles(...)` list (unset when the decorator is absent), and
whether the route carries `@UseGuards(OwnershipGuard)`. -/
structure RouteMeta where
  isPublic : Bool
  allowedRoles : Option (List UserRole)
  ownershipGuarded : Bool
deriving DecidableEq, Repr

/-- Modelled from the spec: the authentication gate (spec 4.2), realised in
the repository by `JwtAuthGuard` and the JWT strategy
(`src/common/guards/jwt-auth.guard.ts` and the passport strategy are
missing from the given sources).  Public routes pass immediately with no
identity and without consulting the verifier; otherwise a missing token, a
token failing verification for any cause, and a valid token whose subject
is missing or inactive in the store all collapse to the same
`Unauthorized` rejection; on success the attached claims come from
`validateUserById`, hence from the store. -/
def authenticate (meta : RouteMeta) (verify : String → VerifyResult)
    (store : String → Option User) (rawToken : Option String) :
    Except Exc (Option UserPayload) :=
  if meta.isPublic then .ok none
  else
    match rawToken with
    | none => .error (.unauthorized "Unauthorized")
    | some tok =>
      match verify tok with
      | .ok claims =>
        match validateUserById store claims.sub with
        | some payload => .ok (some payload)
        | none => .error (.unauthorized "Unauthorized")
      | _ => .error (.unauthorized "Unauthorized")

/-- Authorization stages of the pipeline, in their fixed order
(spec 4.5). -/
inductive Stage where
  | authGate
  | rolePolicy
  | ownershipPolicy
deriving DecidableEq, Repr

/-- Modelled from the spec: the guard-chain composition (spec 4.5),
realised in the repository by Nest running
`@UseGuards(JwtAuthGuard, RolesGuard)` at controller level and then
`@UseGuards(OwnershipGuard)` at method level, stopping at the first guard
that throws.  Alongside the decision it records the list of stages that
actually ran, in order. -/
def authorizeTrace (meta : RouteMeta) (verify : String → VerifyResult)
    (store : String → Option User) (rawToken : Option String)
    (params : RequestParams) :
    Except Exc (Option UserPayload) × List Stage :=
  match authenticate meta verify store rawToken with
  | .error e => (.error e, [.authGate])
  | .ok ident =>
    match RolesGuard.canActivate meta.allowedRoles ident with
    | .error e => (.error e, [.authGate, .rolePolicy])
    | .ok _ =>
      if meta.ownershipGuarded then
        match OwnershipGuard.canActivate ident params with
        | .error e => (.error e, [.authGate, .rolePolicy, .ownershipPolicy])
        | .ok _ => (.ok ident, [.authGate, .rolePolicy, .ownershipPolicy])
      else
        (.ok ident, [.authGate, .rolePolicy])

/-- Composed per-request decision: the first component of the traced
pipeline. -/
def authorize (meta : RouteMeta) (verify : String → VerifyResult)
    (store : String → Option User) (rawToken : Option String)
    (params : RequestParams) : Except Exc (Option UserPayload) :=
  (authorizeTrace meta verify store rawToken params).fst

/-- Metadata of `POST /users` (`UsersController.create`): decorated
`@Public()`, no `@Roles`, no ownership guard
(`src/users/users.controller.ts`, lines 33 to 35). -/
def createUserRouteMeta : RouteMeta :=
  { isPublic := true, allowedRoles := none, ownershipGuarded := false }

/-- Metadata of `GET /users` (`UsersController.findAll`): decorated
`@Roles(UserRole.ADMIN, UserRole.MODERATOR)`
(`src/users/users.controller.ts`, lines 49 to 51). -/
def findAllRouteMeta : RouteMeta :=
  { isPublic := false, allowedRoles := some [.admin, .moderator],
    ownershipGuarded := false }

/-- Metadata of `GET /users/:id` (`UsersController.findOne`): decorated
`@UseGuards(OwnershipGuard)` (`src/users/users.controller.ts`, lines 80
to 82). -/
def findOneRouteMeta : RouteMeta :=
  { isPublic := false, allowedRoles := none, ownershipGuarded := true }

/-- Data carried by `CreateUserDto`
(`src/common/dto/create-user.dto.ts`): the role field is optional and
constrained by `@IsEnum(UserRole)` to the role enumeration. -/
structure CreateUserDto where
  email : String
  username : String
  password : String
  role : Option UserRole
deriving DecidableEq, Repr

/-- Embedding of `UsersService.findByEmail` in
`src/users/users.service.ts` (the password side table it also returns is
external and irrelevant to the membership test `create` uses it for). -/
def UsersService.findByEmail (users : List User) (email : String) :
    Option User :=
  users.find? (fun u => u.email = email)

/-- Embedding of `UsersService.create` in `src/users/users.service.ts`:
rejects a duplicate email with a `ConflictException`, otherwise appends a
new record with `id = (users.length + 1).toString()`,
`role = createUserDto.role || UserRole.USER` (every enum value is a
nonempty, hence truthy, string) and `isActive = true`.  Returns the new
record together with the updated store; the bcrypt hash written to the
password side table is external and omitted. -/
def UsersService.create (users : List User) (dto : CreateUserDto) :
    Except Exc (User × List User) :=
  match UsersService.findByEmail users dto.email with
  | some _ => .error (.conflict "User with this email already exists")
  | none =>
    let newUser : User :=
      { id := toString (users.length + 1), email := dto.email,
        username := dto.username, role := dto.role.getD UserRole.user,
        isActive := true }
    .ok (newUser, users ++ [newUser])

/-- Seed admin record of the in-memory store in
`src/users/users.service.ts`. -/
def demoAdmin : User :=
  { id := "1", email := "admin@example.com", username := "admin",
    role := .admin, isActive := true }

/-- Seed regular-user record of the in-memory store in
`src/users/users.service.ts`. -/
def demoUser : User :=
  { id := "2", email := "user@example.com", username := "user",
    role := .user, isActive := true }

/-- Lookup by id over the seeded in-memory store
(`UsersService.findById` restricted to the two seed records). -/
def demoStore : String → Option User := fun id =>
  if id = "1" then some demoAdmin
  else if id = "2" then some demoUser
  else none

/-- Helper: every rejection the ownership guard raises is a
`ForbiddenException`. -/
theorem ownershipGuard_error_forbidden (user : Option UserPayload)
    (params : RequestParams) (e : Exc)
    (h : OwnershipGuard.canActivate user params = .error e) :
    e.isForbiddenKind = true := by
  unfold OwnershipGuard.canActivate at h
  cases user with
  | none => simp at h; subst h; rfl
  | some u =>
    by_cases hadm : u.role = UserRole.admin
    · simp [hadm] at h
    · by_cases heq : some u.sub = resolveResourceId params
      · simp [hadm, heq] at h
      · simp [hadm, heq] at h; subst h; rfl

/-- Helper: every rejection the roles guard raises is a
`ForbiddenException`. -/
theorem rolesGuard_error_forbidden (requiredRoles : Option (List UserRole))
    (user : Option UserPayload) (e : Exc)
    (h : RolesGuard.canActivate requiredRoles user = .error e) :
    e.isForbiddenKind = true := by
  unfold RolesGuard.canActivate at h
  cases requiredRoles with
  | none => simp at h
  | some required =>
    by_cases hemp : required.isEmpty
    · simp [hemp] at h
    · simp [hemp] at h
      cases user with
      | none => simp at h; subst h; rfl
      | some u =>
        by_cases hmem : u.role ∈ required
        · simp [hmem] at h
        · simp [hmem] at h; subst h; rfl

/-- Helper: every rejection the authentication gate raises is the uniform
`UnauthorizedException` with message `Unauthorized`. -/
theorem authenticate_error_uniform (meta : RouteMeta)
    (verify : String → VerifyResult) (store : String → Option User)
    (rawToken : Option String) (e : Exc)
    (h : authenticate meta verify store rawToken = .error e) :
    e = .unauthorized "Unauthorized" := by
  unfold authenticate at h
  by_cases hpub : meta.isPublic
  · simp [hpub] at h
  · simp [hpub] at h
    cases rawToken with
    | none => simp at h; exact h.symm
    | some tok =>
      simp at h
      cases hv : verify tok with
      | ok claims =>
        rw [hv] at h
        cases hval : validateUserById store claims.sub with
        | none => simp [hval] at h; exact h.symm
        | some payload => simp [hval] at h
      | badSignature => rw [hv] at h; simp at h; exact h.symm
      | malformedStructure => rw [hv] at h; simp at h; exact h.symm
      | tokenExpired => rw [hv] at h; simp at h; exact h.symm

/-- C1: on an ownership-guarded route with an authenticated identity, an
Admin identity passes for every target resource id; a non-Admin identity
passes exactly when its subject id equals the resolved target resource id,
and on inequality the guard raises `Forbidden` with the
own-resources-only message.  (`OwnershipGuard.canActivate` in
`src/common/guards/ownership.guard.ts`.) -/
theorem ownership_policy_decision (u : UserPayload) (params : RequestParams)
    (tid : String) (hres : resolveResourceId params = some tid) :
    (u.role = UserRole.admin →
      OwnershipGuard.canActivate (some u) params = .ok true) ∧
    (u.role ≠ UserRole.admin →
      (OwnershipGuard.canActivate (some u) params = .ok true ↔ u.sub = tid) ∧
      (u.sub ≠ tid →
        OwnershipGuard.canActivate (some u) params
          = .error (.forbidden "You can only access your own resources"))) := by
  constructor
  · intro hadm
    simp [OwnershipGuard.canActivate, hadm]
  · intro hadm
    by_cases heq : u.sub = tid
    · constructor
      · simp [OwnershipGuard.canActivate, hadm, hres, heq]
      · intro hne; exact absurd heq hne
    · constructor
      · simp [OwnershipGuard.canActivate, hadm, hres, heq]
      · intro _
        simp [OwnershipGuard.canActivate, hadm, hres, heq]

/-- C1 witness: a non-Admin identity with subject id `2` targeting
resource id `1` is rejected with the own-resources-only message. -/
theorem ownership_policy_decision_witness :
    OwnershipGuard.canActivate
      (some { sub := "2", email := "user@example.com", username := "user",
              role := UserRole.user })
      { userId := none, id := some "1" }
      = .error (.forbidden "You can only access your own resources") := by
  have h := ownership_policy_decision
    { sub := "2", email := "user@example.com", username := "user",
      role := UserRole.user }
    { userId := none, id := some "1" } "1" rfl
  exact (h.2 (by decide)).2 (by decide)

/-- C9: the ownership guard resolves the target resource id as
`request.params.userId` when that parameter is present (and nonempty, as
path parameters produced by the router always are), falling back to
`request.params.id`; when neither parameter is present every
authenticated non-Admin identity is rejected (no subject id equals the
absent target), while an Admin identity still passes. -/
theorem ownership_resource_resolution (params : RequestParams)
    (u : UserPayload) :
    (∀ s, params.userId = some s → s ≠ "" →
      resolveResourceId params = some s) ∧
    (params.userId = none → resolveResourceId params = params.id) ∧
    (params.userId = none → params.id = none →
      (u.role ≠ UserRole.admin →
        OwnershipGuard.canActivate (some u) params
          = .error (.forbidden "You can only access your own resources")) ∧
      (u.role = UserRole.admin →
        OwnershipGuard.canActivate (some u) params = .ok true)) := by
  refine ⟨?_, ?_, ?_⟩
  · intro s hs hne
    simp [resolveResourceId, jsOrParam, hs, hne]
  · intro hnone
    simp [resolveResourceId, jsOrParam, hnone]
  · intro hu hid
    have hres : resolveResourceId params = none := by
      simp [resolveResourceId, jsOrParam, hu, hid]
    constructor
    · intro hadm
      simp [OwnershipGuard.canActivate, hadm, hres]
    · intro hadm
      simp [OwnershipGuard.canActivate, hadm, hres]

/-- C9 witness: with neither path parameter present, a non-Admin identity
is rejected and an Admin identity passes. -/
theorem ownership_resource_resolution_witness :
    OwnershipGuard.canActivate
      (some { sub := "2", email := "user@example.com", username := "user",
              role := UserRole.user })
      { userId := none, id := none }
      = .error (.forbidden "You can only access your own resources") ∧
    OwnershipGuard.canActivate
      (some { sub := "1", email := "admin@example.com", username := "admin",
              role := UserRole.admin })
      { userId := none, id := none } = .ok true := by
  constructor
  · exact ((ownership_resource_resolution
      { userId := none, id := none }
      { sub := "2", email := "user@example.com", username := "user",
        role := UserRole.user }).2.2 rfl rfl).1 (by decide)
  · exact ((ownership_resource_resolution
      { userId := none, id := none }
      { sub := "1", email := "admin@example.com", username := "admin",
        role := UserRole.admin }).2.2 rfl rfl).2 rfl

/-- Helper: the role-mismatch message is never the defensive
no-identity message (its length alone already separates the two). -/
theorem rolesDeniedMessage_ne_noIdentity (required : List UserRole)
    (r : UserRole) : rolesDeniedMessage required r ≠ "User not authenticated" := by
  intro h
  have hlen := congrArg String.length h
  simp only [rolesDeniedMessage, String.length_append] at hlen
  have h1 : ("Access denied. Required roles: " : String).length = 31 := by
    decide
  have h2 : (". Your role: " : String).length = 13 := by decide
  have h3 : ("User not authenticated" : String).length = 22 := by decide
  rw [h1, h2, h3] at hlen
  omega

/-- C3: with an authenticated identity, the role policy passes
unconditionally when the route declares no allowed roles (unset or empty);
with a nonempty declared set it passes exactly when the identity role is a
member, and on a mismatch it raises `Forbidden` with the message that
names the required role set and the actual role
(`rolesDeniedMessage`). -/
theorem role_policy_decision (required : List UserRole) (u : UserPayload) :
    RolesGuard.canActivate none (some u) = .ok true ∧
    RolesGuard.canActivate (some []) (some u) = .ok true ∧
    (required ≠ [] →
      (RolesGuard.canActivate (some required) (some u) = .ok true ↔
        u.role ∈ required) ∧
      (u.role ∉ required →
        RolesGuard.canActivate (some required) (some u)
          = .error (.forbidden (rolesDeniedMessage required u.role)))) := by
  refine ⟨rfl, rfl, ?_⟩
  intro hne
  have hemp : required.isEmpty = false := by
    cases required with
    | nil => exact absurd rfl hne
    | cons a l => rfl
  by_cases hmem : u.role ∈ required
  · constructor
    · simp [RolesGuard.canActivate, hemp, hmem]
    · intro hnot; exact absurd hmem hnot
  · constructor
    · simp [RolesGuard.canActivate, hemp, hmem]
    · intro _
      simp [RolesGuard.canActivate, hemp, hmem]

/-- C3 witness: a `user` identity on the Admin-and-Moderator-restricted
route is rejected with the message naming both the required set and the
actual role, and passes when the required set contains its role. -/
theorem role_policy_decision_witness :
    RolesGuard.canActivate (some [UserRole.admin, UserRole.moderator])
      (some { sub := "2", email := "user@example.com", username := "user",
              role := UserRole.user })
      = .error (.forbidden
          (rolesDeniedMessage [UserRole.admin, UserRole.moderator]
            UserRole.user)) := by
  have h := role_policy_decision [UserRole.admin, UserRole.moderator]
    { sub := "2", email := "user@example.com", username := "user",
      role := UserRole.user }
  exact (h.2.2 (by decide)).2 (by decide)

/-- C7 counterexample: an invocation of the role policy with identity
absent that passes instead of signalling `Forbidden`: when the route
declares no allowed roles, the guard returns true before ever looking at
the identity (this is exactly the situation of the public `POST /users`
route, on which the controller-level roles guard runs with no identity
attached and the e2e suite expects success). -/
theorem role_policy_absent_identity_can_pass :
    RolesGuard.canActivate none none = .ok true := rfl

/-- C7 amended: the ownership policy always fails closed on an absent
identity; the role policy fails closed on an absent identity whenever the
route declares a nonempty allowed-role set, with the defensive message
`User not authenticated`, which is distinct from every role-mismatch
message; with no declared roles the role policy passes irrespective of
the identity. -/
theorem policies_fail_closed_amended (params : RequestParams)
    (required : List UserRole) (r : UserRole) (hne : required ≠ []) :
    OwnershipGuard.canActivate none params
      = .error (.forbidden "User not authenticated") ∧
    RolesGuard.canActivate (some required) none
      = .error (.forbidden "User not authenticated") ∧
    rolesDeniedMessage required r ≠ "User not authenticated" ∧
    RolesGuard.canActivate none none = .ok true := by
  have hemp : required.isEmpty = false := by
    cases required with
    | nil => exact absurd rfl hne
    | cons a l => rfl
  refine ⟨rfl, ?_, rolesDeniedMessage_ne_noIdentity required r, rfl⟩
  simp [RolesGuard.canActivate, hemp]

/-- C7 amended witness: both policies reject an absent identity on the
Admin-restricted delete route, with the defensive message. -/
theorem policies_fail_closed_amended_witness :
    OwnershipGuard.canActivate none { userId := none, id := some "2" }
      = .error (.forbidden "User not authenticated") ∧
    RolesGuard.canActivate (some [UserRole.admin]) none
      = .error (.forbidden "User not authenticated") ∧
    rolesDeniedMessage [UserRole.admin] UserRole.user
      ≠ "User not authenticated" ∧
    RolesGuard.canActivate none none = .ok true :=
  policies_fail_closed_amended { userId := none, id := some "2" }
    [UserRole.admin] UserRole.user (by decide)

/-- C2: the pipeline evaluates Authentication Gate, Role Policy, Ownership
Policy in that fixed order with short-circuit on first failure: a failing
stage ends the trace at that stage, no later stage runs, and the rejection
is the failing stage kind (`Unauthorized` for the gate, `Forbidden` for
both policies). -/
theorem pipeline_order_and_short_circuit (meta : RouteMeta)
    (verify : String → VerifyResult) (store : String → Option User)
    (rawToken : Option String) (params : RequestParams) :
    (∀ e, authenticate meta verify store rawToken = .error e →
      authorizeTrace meta verify store rawToken params
        = (.error e, [Stage.authGate]) ∧
      e.isUnauthorizedKind = true) ∧
    (∀ ident e, authenticate meta verify store rawToken = .ok ident →
      RolesGuard.canActivate meta.allowedRoles ident = .error e →
      authorizeTrace meta verify store rawToken params
        = (.error e, [Stage.authGate, Stage.rolePolicy]) ∧
      e.isForbiddenKind = true) ∧
    (∀ ident b e, authenticate meta verify store rawToken = .ok ident →
      RolesGuard.canActivate meta.allowedRoles ident = .ok b →
      meta.ownershipGuarded = true →
      OwnershipGuard.canActivate ident params = .error e →
      authorizeTrace meta verify store rawToken params
        = (.error e,
           [Stage.authGate, Stage.rolePolicy, Stage.ownershipPolicy]) ∧
      e.isForbiddenKind = true) := by
  refine ⟨?_, ?_, ?_⟩
  · intro e hauth
    constructor
    · simp [authorizeTrace, hauth]
    · rw [authenticate_error_uniform meta verify store rawToken e hauth]
      rfl
  · intro ident e hauth hrole
    constructor
    · simp [authorizeTrace, hauth, hrole]
    · exact rolesGuard_error_forbidden meta.allowedRoles ident e hrole
  · intro ident b e hauth hrole hguard hown
    constructor
    · simp [authorizeTrace, hauth, hrole, hguard, hown]
    · exact ownershipGuard_error_forbidden ident params e hown

/-- C2 witness: on the Admin-and-Moderator-restricted route with no token
at all, the pipeline stops after the Authentication Gate with the uniform
`Unauthorized` rejection. -/
theorem pipeline_order_and_short_circuit_witness :
    authorizeTrace findAllRouteMeta (fun _ => VerifyResult.badSignature)
      demoStore none { userId := none, id := none }
      = (.error (.unauthorized "Unauthorized"), [Stage.authGate]) ∧
    Exc.isUnauthorizedKind (.unauthorized "Unauthorized") = true :=
  (pipeline_order_and_short_circuit findAllRouteMeta
    (fun _ => VerifyResult.badSignature) demoStore none
    { userId := none, id := none }).1 (.unauthorized "Unauthorized") rfl

/-- C4: on a public route the Authentication Gate returns no identity and
rejects nothing, for every token input; its result, and the whole pipeline
decision, are independent of the verifier and the store, so the Token
Verifier is never consulted. -/
theorem public_route_bypasses_verifier (meta : RouteMeta)
    (verify verify2 : String → VerifyResult)
    (store store2 : String → Option User)
    (raw raw2 : Option String) (params : RequestParams)
    (hpub : meta.isPublic = true) :
    authenticate meta verify store raw = .ok none ∧
    authenticate meta verify store raw
      = authenticate meta verify2 store2 raw2 ∧
    authorize meta verify store raw params
      = authorize meta verify2 store2 raw2 params := by
  refine ⟨?_, ?_, ?_⟩
  · simp [authenticate, hpub]
  · simp [authenticate, hpub]
  · simp [authorize, authorizeTrace, authenticate, hpub]

/-- C4 witness: on the public `POST /users` route, a request with no token
and a request with a badly signed token both pass the gate with no
identity, and yield the same pipeline decision. -/
theorem public_route_bypasses_verifier_witness :
    authenticate createUserRouteMeta (fun _ => VerifyResult.ok
      { sub := "1", email := "admin@example.com", username := "admin",
        role := UserRole.admin }) demoStore none = .ok none ∧
    authenticate createUserRouteMeta (fun _ => VerifyResult.ok
      { sub := "1", email := "admin@example.com", username := "admin",
        role := UserRole.admin }) demoStore none
      = authenticate createUserRouteMeta (fun _ => VerifyResult.badSignature)
          (fun _ => none) (some "whatever") ∧
    authorize createUserRouteMeta (fun _ => VerifyResult.ok
      { sub := "1", email := "admin@example.com", username := "admin",
        role := UserRole.admin }) demoStore none
      { userId := none, id := none }
      = authorize createUserRouteMeta (fun _ => VerifyResult.badSignature)
          (fun _ => none) (some "whatever") { userId := none, id := none } :=
  public_route_bypasses_verifier createUserRouteMeta
    (fun _ => VerifyResult.ok
      { sub := "1", email := "admin@example.com", username := "admin",
        role := UserRole.admin })
    (fun _ => VerifyResult.badSignature) demoStore (fun _ => none) none
    (some "whatever") { userId := none, id := none } rfl

/-- C5: on a non-public route, a token that verifies successfully is still
rejected with the uniform `Unauthorized` when the store has no record for
the token subject or the stored record is inactive. -/
theorem valid_token_stale_subject_rejected (meta : RouteMeta)
    (verify : String → VerifyResult) (store : String → Option User)
    (tok : String) (claims : UserPayload)
    (hpub : meta.isPublic = false) (hv : verify tok = .ok claims)
    (hstale : store claims.sub = none ∨
      ∃ u, store claims.sub = some u ∧ u.isActive = false) :
    authenticate meta verify store (some tok)
      = .error (.unauthorized "Unauthorized") := by
  have hval : validateUserById store claims.sub = none := by
    cases hstale with
    | inl h => simp [validateUserById, h]
    | inr h =>
      obtain ⟨u, hu, hin⟩ := h
      simp [validateUserById, hu, hin]
  simp [authenticate, hpub, hv, hval]

/-- C5 witness: a verifying token for subject `9`, which the seeded store
does not contain, is rejected on the ownership-guarded route. -/
theorem valid_token_stale_subject_rejected_witness :
    authenticate findOneRouteMeta
      (fun _ => VerifyResult.ok
        { sub := "9", email := "ghost@example.com", username := "ghost",
          role := UserRole.admin })
      demoStore (some "token9")
      = .error (.unauthorized "Unauthorized") :=
  valid_token_stale_subject_rejected findOneRouteMeta
    (fun _ => VerifyResult.ok
      { sub := "9", email := "ghost@example.com", username := "ghost",
        role := UserRole.admin })
    demoStore "token9"
    { sub := "9", email := "ghost@example.com", username := "ghost",
      role := UserRole.admin }
    rfl rfl (Or.inl rfl)

/-- C6: on a successful authentication the attached claims are rebuilt
from the stored record, so when the stored role and the token role differ
the stored role is the one carried into the later policy stages. -/
theorem stored_role_overrides_token_role (meta : RouteMeta)
    (verify : String → VerifyResult) (store : String → Option User)
    (tok : String) (claims : UserPayload) (u : User)
    (hpub : meta.isPublic = false) (hv : verify tok = .ok claims)
    (hstore : store claims.sub = some u) (hact : u.isActive = true)
    (hdiff : claims.role ≠ u.role) :
    authenticate meta verify store (some tok)
      = .ok (some { sub := u.id, email := u.email, username := u.username,
                    role := u.role }) ∧
    (∀ payload,
      authenticate meta verify store (some tok) = .ok (some payload) →
      payload.role = u.role ∧ payload.role ≠ claims.role) := by
  have hres : authenticate meta verify store (some tok)
      = .ok (some { sub := u.id, email := u.email, username := u.username,
                    role := u.role }) := by
    simp [authenticate, hpub, hv, validateUserById, hstore, hact]
  refine ⟨hres, ?_⟩
  intro payload hpay
  rw [hres] at hpay
  have : payload = { sub := u.id, email := u.email, username := u.username,
                     role := u.role } := by
    injection hpay with h1
    injection h1 with h2
    exact h2.symm
  subst this
  exact ⟨rfl, fun hc => hdiff hc.symm⟩

/-- C6 witness: a token claiming role `user` for subject `1`, whose stored
record has role `admin`, authenticates with role `admin` attached. -/
theorem stored_role_overrides_token_role_witness :
    authenticate findOneRouteMeta
      (fun _ => VerifyResult.ok
        { sub := "1", email := "admin@example.com", username := "admin",
          role := UserRole.user })
      demoStore (some "staleToken")
      = .ok (some { sub := "1", email := "admin@example.com",
                    username := "admin", role := UserRole.admin }) :=
  (stored_role_overrides_token_role findOneRouteMeta
    (fun _ => VerifyResult.ok
      { sub := "1", email := "admin@example.com", username := "admin",
        role := UserRole.user })
    demoStore "staleToken"
    { sub := "1", email := "admin@example.com", username := "admin",
      role := UserRole.user }
    demoAdmin rfl rfl rfl rfl (by decide)).1

/-- Credential-failure predicate of the Authentication Gate: the request
carries no token, or the token it carries fails verification for any
cause (bad signature, malformed structure, or expiry). -/
def credentialsRejected (verify : String → VerifyResult)
    (raw : Option String) : Bool :=
  match raw with
  | none => true
  | some t =>
    match verify t with
    | .ok _ => false
    | _ => true

/-- Helper: a credential failure on a non-public route always yields the
one uniform `Unauthorized` rejection. -/
theorem credentials_rejected_uniform (meta : RouteMeta)
    (verify : String → VerifyResult) (store : String → Option User)
    (raw : Option String) (hpub : meta.isPublic = false)
    (hfail : credentialsRejected verify raw = true) :
    authenticate meta verify store raw
      = .error (.unauthorized "Unauthorized") := by
  cases raw with
  | none => simp [authenticate, hpub]
  | some t =>
    unfold credentialsRejected at hfail
    cases hv : verify t with
    | ok claims => simp [hv] at hfail
    | badSignature => simp [authenticate, hpub, hv]
    | malformedStructure => simp [authenticate, hpub, hv]
    | tokenExpired => simp [authenticate, hpub, hv]

/-- C8: any two requests to a non-public route whose credentials fail for
different causes (absent header, malformed token, expired token, wrong
signature) receive rejections identical in shape: the same
`Unauthorized` error with the same message, regardless of the cause and
even of the store consulted. -/
theorem auth_failure_cause_indistinguishable (meta : RouteMeta)
    (verify : String → VerifyResult) (store store2 : String → Option User)
    (raw raw2 : Option String) (hpub : meta.isPublic = false)
    (h1 : credentialsRejected verify raw = true)
    (h2 : credentialsRejected verify raw2 = true) :
    authenticate meta verify store raw
      = .error (.unauthorized "Unauthorized") ∧
    authenticate meta verify store raw
      = authenticate meta verify store2 raw2 := by
  have e1 := credentials_rejected_uniform meta verify store raw hpub h1
  have e2 := credentials_rejected_uniform meta verify store2 raw2 hpub h2
  exact ⟨e1, by rw [e1, e2]⟩

/-- C8 witness: on the restricted list route, a request with no header and
a request with an expired token receive the identical rejection. -/
theorem auth_failure_cause_indistinguishable_witness :
    authenticate findAllRouteMeta (fun _ => VerifyResult.tokenExpired)
      demoStore none = .error (.unauthorized "Unauthorized") ∧
    authenticate findAllRouteMeta (fun _ => VerifyResult.tokenExpired)
      demoStore none
      = authenticate findAllRouteMeta (fun _ => VerifyResult.tokenExpired)
          demoStore (some "expired.jwt.token") :=
  auth_failure_cause_indistinguishable findAllRouteMeta
    (fun _ => VerifyResult.tokenExpired) demoStore demoStore none
    (some "expired.jwt.token") rfl rfl rfl

/-- C10: the user-creation operation behind the public `POST /users` route
stores the optional role field verbatim: under a fresh email, the created
record carries exactly the requested role, defaulting to `user` when the
role is omitted — so an unauthenticated caller can create an account with
the Admin role. -/
theorem public_create_stores_role_verbatim (users : List User)
    (dto : CreateUserDto)
    (hfresh : UsersService.findByEmail users dto.email = none) :
    createUserRouteMeta.isPublic = true ∧
    (∀ verify store raw,
      authenticate createUserRouteMeta verify store raw = .ok none) ∧
    (∃ u rest, UsersService.create users dto = .ok (u, rest) ∧
      u.role = dto.role.getD UserRole.user) ∧
    (dto.role = none →
      ∃ u rest, UsersService.create users dto = .ok (u, rest) ∧
        u.role = UserRole.user) := by
  have hcreate : UsersService.create users dto
      = .ok ({ id := toString (users.length + 1), email := dto.email,
               username := dto.username, role := dto.role.getD UserRole.user,
               isActive := true },
             users ++ [{ id := toString (users.length + 1),
                         email := dto.email, username := dto.username,
                         role := dto.role.getD UserRole.user,
                         isActive := true }]) := by
    simp [UsersService.create, hfresh]
  refine ⟨rfl, ?_, ?_, ?_⟩
  · intro verify store raw
    simp [authenticate, createUserRouteMeta]
  · exact ⟨_, _, hcreate, rfl⟩
  · intro hnone
    refine ⟨_, _, hcreate, ?_⟩
    simp [hnone]

/-- C10 witness: with the seeded store and a fresh email, an
unauthenticated caller requesting role `admin` obtains a record whose
role is `admin`. -/
theorem public_create_stores_role_verbatim_witness :
    createUserRouteMeta.isPublic = true ∧
    (∃ u rest, UsersService.create [demoAdmin, demoUser]
        { email := "evil@example.com", username := "evil",
          password := "password123", role := some UserRole.admin }
        = .ok (u, rest) ∧
      u.role = (some UserRole.admin).getD UserRole.user) := by
  have h := public_create_stores_role_verbatim [demoAdmin, demoUser]
    { email := "evil@example.com", username := "evil",
      password := "password123", role := some UserRole.admin } rfl
  exact ⟨h.1, h.2.2.1⟩
